import Mathlib

/-!
Shallow embedding of the chirper backend (src/s4.js): a small social-feed
server over two document collections (users, tweets).  Documents are keyed
by numeric ids; the Mongo store is modelled as association lists, a route
handler as a pure function from the database (plus request data) to the
updated database and an `Except`-style response.  External primitives that
the spec places out of scope (bcrypt hashing, JWT signing, multer file
storage, socket.io broadcast) are not modelled: broadcasts do not change
the store, tokens are replaced by the resolved user id the auth middleware
produces.
-/

namespace Chirper

/-- Error taxonomy of the handlers: each constructor is one distinct error
response body the JS code can produce. -/
inductive Err where
  /-- signup: 400 "Please provide all fields" -/
  | MissingField
  /-- signup: 400 "Username already taken" -/
  | UsernameTaken
  /-- login: 401 "Invalid credentials" -/
  | InvalidCredentials
  /-- authenticate middleware: 401 "Unauthorized" (no token) -/
  | AuthRequired
  /-- authenticate middleware: 401 "User not found" -/
  | AuthUserNotFound
  /-- authenticate middleware: 401 "Invalid token" -/
  | InvalidToken
  /-- 404 "User not found" -/
  | UserNotFound
  /-- 404 "Tweet not found" -/
  | TweetNotFound
  /-- 400 "Content is required" -/
  | MissingContent
  /-- follow: 400 "Already following this user" -/
  | AlreadyFollowing
  /-- unfollow: 400 "Not following this user" -/
  | NotFollowing
  /-- 500 "Server error" -/
  | ServerError
deriving DecidableEq, Repr

/-- Decidable equality for responses wrapped in `Except`. -/
instance {e a : Type} [DecidableEq e] [DecidableEq a] : DecidableEq (Except e a)
  | .error x, .error y =>
    if h : x = y then .isTrue (by rw [h]) else .isFalse (by simp [h])
  | .error _, .ok _ => .isFalse (by simp)
  | .ok _, .error _ => .isFalse (by simp)
  | .ok x, .ok y =>
    if h : x = y then .isTrue (by rw [h]) else .isFalse (by simp [h])

/-- User document (userSchema, s4.js lines 31-39).  `following` holds user
ids; `followers` is the denormalized counter. -/
structure User where
  username : String
  password : String
  name : String
  avatar : String
  bio : String
  following : List Nat
  followers : Nat
deriving DecidableEq, Repr

/-- Embedded comment record (tweetSchema `comments`, s4.js lines 51-60):
a snapshot of the commenting user plus content and timestamp. -/
structure Comment where
  userId : Nat
  userName : String
  userUsername : String
  userAvatar : String
  content : String
  createdAt : Nat
deriving DecidableEq, Repr

/-- Tweet document (tweetSchema, s4.js lines 42-62).  `likes` holds user
ids; timestamps are naturals. -/
structure Tweet where
  userId : Nat
  author : String
  handle : String
  avatar : String
  content : String
  image : Option String
  likes : List Nat
  retweets : Nat
  comments : List Comment
  createdAt : Nat
deriving DecidableEq, Repr

/-- Association-list lookup by id: the first record with the given id, as
`Model.findById`. -/
def lookupA {α : Type} : List (Nat × α) → Nat → Option α
  | [], _ => none
  | p :: l, i => if p.1 = i then some p.2 else lookupA l i

/-- Update the record(s) with the given id in place, as a Mongoose
`doc.save()` of modified paths: every other record is untouched. -/
def updateA {α : Type} : List (Nat × α) → Nat → (α → α) → List (Nat × α)
  | [], _, _ => []
  | p :: l, i, f =>
    (if p.1 = i then (p.1, f p.2) else p) :: updateA l i f

/-- The two collections plus fresh-id counters (Mongo generates object
ids; we model them as consecutive naturals). -/
structure DB where
  users : List (Nat × User)
  tweets : List (Nat × Tweet)
  nextUserId : Nat
  nextTweetId : Nat
deriving DecidableEq, Repr

/-- Empty store: the state of a fresh deployment. -/
def dbInit : DB := ⟨[], [], 0, 0⟩

def findUser (db : DB) (i : Nat) : Option User := lookupA db.users i

def findTweet (db : DB) (i : Nat) : Option Tweet := lookupA db.tweets i

def updateUser (db : DB) (i : Nat) (f : User → User) : DB :=
  { db with users := updateA db.users i f }

def updateTweet (db : DB) (i : Nat) (f : Tweet → Tweet) : DB :=
  { db with tweets := updateA db.tweets i f }

/-- First user whose `username` field matches, as
`User.findOne ({ username })`. -/
def findByUsername : List (Nat × User) → String → Option User
  | [], _ => none
  | p :: l, uname =>
    if p.2.username = uname then some p.2 else findByUsername l uname

/-- Modelled from the spec: `bcrypt.hash (password, 10)` is an external
one-way primitive, out of scope per spec section 1; modelled as an
abstract injective tagging function. -/
def hashPassword (password : String) : String := "bcrypt$" ++ password

/-- Splitting a character list at every separator, keeping empty pieces:
the semantics of JS `String.prototype.split` with a single-character
separator (structural recursion so that concrete instances compute). -/
def splitChars (p : Char → Bool) : List Char → List (List Char)
  | [] => [[]]
  | c :: cs =>
    if p c then [] :: splitChars p cs
    else
      match splitChars p cs with
      | [] => [[c]]
      | t :: ts => (c :: t) :: ts

/-- JS `s.split(sep)` for a one-character separator predicate. -/
def splitStr (s : String) (p : Char → Bool) : List String :=
  (splitChars p s.data).map String.mk

/-- First character of a token as a string: JS `n[0]` followed by
`join`'s treatment of `undefined` as the empty contribution. -/
def firstChar (s : String) : String :=
  match s.data with
  | [] => ""
  | c :: _ => String.singleton c

/-- Avatar derivation of signup (s4.js line 114):
`name.split(' ').map(n => n[0]).join('').substring(0,2).toUpperCase()`.
`split(' ')` splits on the single space character (keeping empty tokens),
`substring(0,2)` keeps the first two characters, `toUpperCase` uppercases
per character (ASCII model). -/
def avatarOf (name : String) : String :=
  let toks := splitStr name fun c => c = ' '
  let initials := String.join (toks.map firstChar)
  String.mk ((initials.data.take 2).map Char.toUpper)

/-- Signup response user object (s4.js lines 119-128): `_id`, username,
name, avatar (the JWT token is an external primitive and omitted). -/
structure SignupResp where
  userId : Nat
  username : String
  name : String
  avatar : String
deriving DecidableEq, Repr

/-- POST /api/signup (s4.js lines 101-132).  Field presence is checked
first (JS falsiness of the empty string), then username uniqueness; on
success the new user is appended with a fresh id. -/
def signup (db : DB) (username password name : String) :
    DB × Except Err SignupResp :=
  if username = "" ∨ password = "" ∨ name = "" then
    (db, .error .MissingField)
  else if (findByUsername db.users username).isSome then
    (db, .error .UsernameTaken)
  else
    let newUser : User :=
      { username := username, password := hashPassword password,
        name := name, avatar := avatarOf name, bio := "",
        following := [], followers := 0 }
    ({ db with users := db.users ++ [(db.nextUserId, newUser)],
               nextUserId := db.nextUserId + 1 },
     .ok ⟨db.nextUserId, username, name, avatarOf name⟩)

/-- POST /api/tweets (s4.js lines 175-198).  `uid` is the id the auth
middleware resolved; its lookup models `authenticate` (401 "User not
found" when the token's user is gone).  `now` is the request timestamp,
`image` the relative path the upload handler produced, if any. -/
def createTweet (db : DB) (uid : Nat) (content : String)
    (image : Option String) (now : Nat) : DB × Except Err Tweet :=
  match findUser db uid with
  | none => (db, .error .AuthUserNotFound)
  | some u =>
    if content = "" then
      (db, .error .MissingContent)
    else
      let t : Tweet :=
        { userId := uid, author := u.name, handle := "@" ++ u.username,
          avatar := u.avatar, content := content, image := image,
          likes := [], retweets := 0, comments := [], createdAt := now }
      ({ db with tweets := db.tweets ++ [(db.nextTweetId, t)],
                 nextTweetId := db.nextTweetId + 1 },
       .ok t)

/-- Like-toggle on a list of liker ids (s4.js lines 208-215):
`indexOf` then `push` when absent, `splice(likeIndex, 1)` (remove the
first occurrence) when present. -/
def toggleLikes (likes : List Nat) (uid : Nat) : List Nat :=
  if likes.contains uid then likes.erase uid else likes ++ [uid]

/-- POST /api/tweets/:id/like (s4.js lines 201-223).  Only the `likes`
path of the found tweet is modified and saved. -/
def toggleLike (db : DB) (tid uid : Nat) : DB × Except Err Tweet :=
  match findUser db uid with
  | none => (db, .error .AuthUserNotFound)
  | some _ =>
    match findTweet db tid with
    | none => (db, .error .TweetNotFound)
    | some t =>
      let t' : Tweet := { t with likes := toggleLikes t.likes uid }
      (updateTweet db tid fun tw => { tw with likes := toggleLikes t.likes uid },
       .ok t')

/-- POST /api/tweets/:id/comment (s4.js lines 333-366).  Content is
checked before the tweet lookup; the comment snapshots the commenting
user's current profile fields. -/
def addComment (db : DB) (tid uid : Nat) (content : String) (now : Nat) :
    DB × Except Err Tweet :=
  match findUser db uid with
  | none => (db, .error .AuthUserNotFound)
  | some u =>
    if content = "" then
      (db, .error .MissingContent)
    else
      match findTweet db tid with
      | none => (db, .error .TweetNotFound)
      | some t =>
        let c : Comment :=
          { userId := uid, userName := u.name, userUsername := u.username,
            userAvatar := u.avatar, content := content, createdAt := now }
        let t' : Tweet := { t with comments := t.comments ++ [c] }
        (updateTweet db tid fun tw => { tw with comments := t.comments ++ [c] },
         .ok t')

/-- POST /api/users/:id/follow response (s4.js lines 251-254). -/
structure FollowResp where
  following : List Nat
  followedUsername : String
deriving DecidableEq, Repr

/-- DELETE /api/users/:id/follow response (s4.js lines 287-290). -/
structure UnfollowResp where
  following : List Nat
  unfollowedUsername : String
deriving DecidableEq, Repr

/-- POST /api/users/:id/follow (s4.js lines 226-258).  The handler loads
the target, re-loads the actor (`User.findById(req.user._id)`; a missing
actor there would make `.following` throw, a 500), rejects a duplicate
follow, then appends to the actor's `following` and increments the
target's `followers`, saving both documents (modified paths only, so a
self-follow keeps both field updates). -/
def follow (db : DB) (actor target : Nat) : DB × Except Err FollowResp :=
  match findUser db actor with
  | none => (db, .error .AuthUserNotFound)
  | some _ =>
    match findUser db target with
    | none => (db, .error .UserNotFound)
    | some tgt =>
      match findUser db actor with
      | none => (db, .error .ServerError)
      | some cur =>
        if cur.following.contains target then
          (db, .error .AlreadyFollowing)
        else
          let db1 := updateUser db actor fun u =>
            { u with following := u.following ++ [target] }
          let db2 := updateUser db1 target fun u =>
            { u with followers := u.followers + 1 }
          (db2, .ok ⟨cur.following ++ [target], tgt.username⟩)

/-- DELETE /api/users/:id/follow (s4.js lines 261-294).  Symmetric to
`follow`: `splice` removes the first occurrence of the target in the
actor's `following`; `Math.max(0, followers - 1)` is truncated
subtraction on naturals. -/
def unfollow (db : DB) (actor target : Nat) : DB × Except Err UnfollowResp :=
  match findUser db actor with
  | none => (db, .error .AuthUserNotFound)
  | some _ =>
    match findUser db target with
    | none => (db, .error .UserNotFound)
    | some tgt =>
      match findUser db actor with
      | none => (db, .error .ServerError)
      | some cur =>
        if cur.following.contains target then
          let db1 := updateUser db actor fun u =>
            { u with following := u.following.erase target }
          let db2 := updateUser db1 target fun u =>
            { u with followers := u.followers - 1 }
          (db2, .ok ⟨cur.following.erase target, tgt.username⟩)
        else
          (db, .error .NotFollowing)

/-- GET /api/users/:id (s4.js lines 310-320): `res.json(user)` returns
the full stored user document. -/
def getProfile (db : DB) (i : Nat) : Except Err User :=
  match findUser db i with
  | none => .error .UserNotFound
  | some u => .ok u

/-- GET /api/tweets (s4.js lines 165-172):
`Tweet.find().sort({ createdAt: -1 })`, every tweet, newest first. -/
def listTweets (db : DB) : List Tweet :=
  (db.tweets.map fun p => p.2).mergeSort fun a b => b.createdAt ≤ a.createdAt

/-- GET /api/tweets/user/:id (s4.js lines 323-330): the tweets whose
`userId` matches, newest first. -/
def listUserTweets (db : DB) (uid : Nat) : List Tweet :=
  ((db.tweets.map fun p => p.2).filter fun t => t.userId = uid).mergeSort
    fun a b => b.createdAt ≤ a.createdAt

/-- JSON field value, shallow: every field of the serialized user
document is a string, a number, or an array of ids. -/
inductive JField where
  | jstr (s : String)
  | jnum (n : Nat)
  | jarr (l : List Nat)
deriving DecidableEq, Repr

/-- Serialization of a stored user document by `res.json(user)`: every
schema field (plus `_id`) appears. -/
def userToJson (i : Nat) (u : User) : List (String × JField) :=
  [("_id", .jnum i),
   ("username", .jstr u.username),
   ("password", .jstr u.password),
   ("name", .jstr u.name),
   ("avatar", .jstr u.avatar),
   ("bio", .jstr u.bio),
   ("following", .jarr u.following),
   ("followers", .jnum u.followers)]

/-- Lightweight profile projection named by the spec for GetProfile /
GetFollowing: username, name, avatar only. -/
def profileJson (u : User) : List (String × JField) :=
  [("username", .jstr u.username),
   ("name", .jstr u.name),
   ("avatar", .jstr u.avatar)]

/-- Body of the GET /api/users/:id response, as serialized JSON fields. -/
def getProfileJson (db : DB) (i : Nat) : Except Err (List (String × JField)) :=
  match findUser db i with
  | none => .error .UserNotFound
  | some u => .ok (userToJson i u)

/-- One mutating request.  The read-only routes (list tweets, profiles,
following) never write the store, so the reachable states are exactly
the ones these six operations generate. -/
inductive Op where
  | opSignup (username password name : String)
  | opCreateTweet (uid : Nat) (content : String) (image : Option String) (now : Nat)
  | opToggleLike (tid uid : Nat)
  | opAddComment (tid uid : Nat) (content : String) (now : Nat)
  | opFollow (actor target : Nat)
  | opUnfollow (actor target : Nat)

/-- State transition of one request (response discarded). -/
def applyOp (db : DB) : Op → DB
  | .opSignup username password name => (signup db username password name).1
  | .opCreateTweet uid content image now => (createTweet db uid content image now).1
  | .opToggleLike tid uid => (toggleLike db tid uid).1
  | .opAddComment tid uid content now => (addComment db tid uid content now).1
  | .opFollow actor target => (follow db actor target).1
  | .opUnfollow actor target => (unfollow db actor target).1

/-- Database states reachable from a fresh deployment by any sequence of
requests. -/
inductive Reachable : DB → Prop where
  | init : Reachable dbInit
  | step (db : DB) (op : Op) : Reachable db → Reachable (applyOp db op)

/-- Modelled from the spec: the avatar-derivation procedure exactly as
claim C5 words it, with "whitespace-separated token" read as splitting on
any whitespace character and tokens being the non-empty pieces: take the
first character of each token, concatenate, uppercase, truncate to 2. -/
def avatarOfWhitespaceSpec (name : String) : String :=
  let toks := (splitStr name Char.isWhitespace).filter fun t => t ≠ ""
  String.mk (((toks.filterMap fun t => t.data.head?).map Char.toUpper).take 2)

/-- Avatar procedure of the amended claim, formulated independently of
the code: split on the single space character, the first character of
each non-empty token in order, keep the first two, uppercase. -/
def avatarOfSpaceSpec (name : String) : String :=
  String.mk ((((splitStr name fun c => c = ' ').filterMap fun t => t.data.head?).take 2).map Char.toUpper)

/-- Fixture: the user record signup creates for (ann, p, Ann Lee). -/
def annUser : User :=
  { username := "ann", password := hashPassword "p", name := "Ann Lee",
    avatar := "AL", bio := "", following := [], followers := 0 }

/-- Fixture: a second user with a non-empty bio. -/
def bobUser : User :=
  { username := "bob", password := hashPassword "q", name := "Bob",
    avatar := "B", bio := "brewer", following := [], followers := 0 }

/-- Fixture: store holding ann alone. -/
def dbAnn : DB := ⟨[(0, annUser)], [], 1, 0⟩

/-- Fixture: store holding ann and bob. -/
def dbTwo : DB := ⟨[(0, annUser), (1, bobUser)], [], 2, 0⟩

/-- Fixture: ann with bob already in her following list. -/
def annFollowsUser : User := { annUser with following := [1] }

/-- Fixture: bob with his followers counter at 1. -/
def bobFollowedUser : User := { bobUser with followers := 1 }

/-- Fixture: store where ann follows bob. -/
def dbAnnFollows : DB := ⟨[(0, annFollowsUser), (1, bobFollowedUser)], [], 2, 0⟩

/-- Fixture: the tweet createTweet makes for ann with content "hi" at
time 5. -/
def tweetHello : Tweet :=
  { userId := 0, author := "Ann Lee", handle := "@ann", avatar := "AL",
    content := "hi", image := none, likes := [], retweets := 0,
    comments := [], createdAt := 5 }

/-- Fixture: store holding ann and her tweet. -/
def dbAnnT : DB := ⟨[(0, annUser)], [(0, tweetHello)], 1, 1⟩

/-! Helper lemmas about the store primitives. -/

theorem lookupA_updateA_self {α : Type} :
    ∀ (l : List (Nat × α)) (i : Nat) (f : α → α),
      lookupA (updateA l i f) i = (lookupA l i).map f
  | [], _, _ => rfl
  | p :: l, i, f => by
    by_cases h : p.1 = i <;>
      simp [lookupA, updateA, h, lookupA_updateA_self l i f]

theorem lookupA_updateA_ne {α : Type} {j i : Nat} (hne : j ≠ i) :
    ∀ (l : List (Nat × α)) (f : α → α),
      lookupA (updateA l i f) j = lookupA l j
  | [], _ => rfl
  | p :: l, f => by
    by_cases h : p.1 = i
    · have hj : ¬ p.1 = j := fun hc => hne (hc ▸ h)
      simp [lookupA, updateA, h, hj, hne.symm, lookupA_updateA_ne hne l f]
    · by_cases hj : p.1 = j <;>
        simp [lookupA, updateA, h, hj, hne, hne.symm, lookupA_updateA_ne hne l f]

theorem lookupA_append_of_some {α : Type} {i : Nat} {a : α} :
    ∀ {l₁ : List (Nat × α)} (l₂ : List (Nat × α)),
      lookupA l₁ i = some a → lookupA (l₁ ++ l₂) i = some a
  | [], _, h => by simp [lookupA] at h
  | p :: l, l₂, h => by
    by_cases hp : p.1 = i
    · simpa [lookupA, hp] using h
    · simp only [lookupA, hp, if_false] at h
      simpa [lookupA, hp] using lookupA_append_of_some l₂ h

theorem mem_updateA {α : Type} {i : Nat} {f : α → α} {p : Nat × α} :
    ∀ {l : List (Nat × α)}, p ∈ updateA l i f →
      ∃ q ∈ l, p = q ∨ p = (q.1, f q.2)
  | [], h => by simp [updateA] at h
  | q :: l, h => by
    simp only [updateA, List.mem_cons] at h
    rcases h with h | h
    · by_cases hq : q.1 = i
      · exact ⟨q, List.mem_cons_self q l, Or.inr (by simpa [hq] using h)⟩
      · exact ⟨q, List.mem_cons_self q l, Or.inl (by simpa [hq] using h)⟩
    · obtain ⟨r, hr, hpr⟩ := mem_updateA h
      exact ⟨r, List.mem_cons_of_mem q hr, hpr⟩

/-! Helper lemmas about the like toggle. -/

theorem toggleLikes_of_mem {l : List Nat} {u : Nat} (h : u ∈ l) :
    toggleLikes l u = l.erase u := by
  simp [toggleLikes, h]

theorem toggleLikes_of_not_mem {l : List Nat} {u : Nat} (h : u ∉ l) :
    toggleLikes l u = l ++ [u] := by
  simp [toggleLikes, h]

/-- Double toggle restores membership, provided the user appears at most
once in the like list (the invariant every reachable tweet satisfies). -/
theorem mem_toggleLikes_twice {l : List Nat} {u : Nat}
    (hc : l.count u ≤ 1) :
    (u ∈ toggleLikes (toggleLikes l u) u) ↔ u ∈ l := by
  by_cases h : u ∈ l
  · have h1 : toggleLikes l u = l.erase u := toggleLikes_of_mem h
    have hcount : (l.erase u).count u = 0 := by
      have := List.count_erase_self u l
      have hpos : 1 ≤ l.count u := List.count_pos_iff.mpr h
      omega
    have h2 : u ∉ l.erase u := List.count_eq_zero.mp hcount
    rw [h1, toggleLikes_of_not_mem h2]
    simp [h]
  · have h1 : toggleLikes l u = l ++ [u] := toggleLikes_of_not_mem h
    have h2 : u ∈ l ++ [u] := by simp
    rw [h1, toggleLikes_of_mem h2, List.erase_append_right _ h]
    simp [h]

/-! Store-level corollaries. -/

theorem findUser_updateUser_self (db : DB) (i : Nat) (f : User → User) :
    findUser (updateUser db i f) i = (findUser db i).map f :=
  lookupA_updateA_self db.users i f

theorem findUser_updateUser_ne {j i : Nat} (h : j ≠ i) (db : DB)
    (f : User → User) : findUser (updateUser db i f) j = findUser db j :=
  lookupA_updateA_ne h db.users f

theorem findTweet_updateTweet_self (db : DB) (i : Nat) (f : Tweet → Tweet) :
    findTweet (updateTweet db i f) i = (findTweet db i).map f :=
  lookupA_updateA_self db.tweets i f

theorem findTweet_updateTweet_ne {j i : Nat} (h : j ≠ i) (db : DB)
    (f : Tweet → Tweet) : findTweet (updateTweet db i f) j = findTweet db j :=
  lookupA_updateA_ne h db.tweets f

theorem tweets_signup (db : DB) (username password name : String) :
    (signup db username password name).1.tweets = db.tweets := by
  unfold signup
  repeat' split
  all_goals rfl

theorem tweets_follow (db : DB) (a b : Nat) :
    (follow db a b).1.tweets = db.tweets := by
  unfold follow
  repeat' split
  all_goals rfl

theorem tweets_unfollow (db : DB) (a b : Nat) :
    (unfollow db a b).1.tweets = db.tweets := by
  unfold unfollow
  repeat' split
  all_goals rfl

theorem users_createTweet (db : DB) (uid : Nat) (content : String)
    (image : Option String) (now : Nat) :
    (createTweet db uid content image now).1.users = db.users := by
  unfold createTweet
  repeat' split
  all_goals rfl

theorem users_toggleLike (db : DB) (tid uid : Nat) :
    (toggleLike db tid uid).1.users = db.users := by
  unfold toggleLike
  repeat' split
  all_goals rfl

theorem users_addComment (db : DB) (tid uid : Nat) (content : String)
    (now : Nat) :
    (addComment db tid uid content now).1.users = db.users := by
  unfold addComment
  repeat' split
  all_goals rfl

/-! Helper lemmas about avatar derivation. -/

theorem firstChar_data (t : String) :
    (firstChar t).data = t.data.head?.toList := by
  cases h : t.data <;> simp [firstChar, h, String.singleton]

theorem join_map_firstChar_data (toks : List String) :
    (String.join (toks.map firstChar)).data
      = toks.filterMap fun t => t.data.head? := by
  rw [String.data_join]
  induction toks with
  | nil => simp
  | cons t ts ih =>
    rw [List.map_cons, List.map_cons, List.flatten_cons, ih,
      List.filterMap_cons, firstChar_data]
    cases t.data.head? <;> simp

/-- The avatar the code computes is the first-initials procedure over
space-separated tokens. -/
theorem avatarOf_eq_spaceSpec (name : String) :
    avatarOf name = avatarOfSpaceSpec name := by
  simp only [avatarOf, avatarOfSpaceSpec, join_map_firstChar_data]

/-! Claim C1. -/

/-- C1, counterexample: GET /api/users/:id does `res.json(user)`, so the
response body is the full stored user document, not the lightweight
projection (username, name, avatar) the claim asserts: on a store holding
ann, the response carries her password hash and follower data as well. -/
theorem getProfile_projection_counterexample :
    findUser dbTwo 0 = some annUser ∧
    getProfileJson dbTwo 0 ≠ Except.ok (profileJson annUser) ∧
    getProfileJson dbTwo 0 = Except.ok (userToJson 0 annUser) ∧
    ("password", JField.jstr (hashPassword "p")) ∈ userToJson 0 annUser := by
  decide

/-- C1 (amended): GetProfile (GET /api/users/:id) returns the full stored
user document — which contains the username, name and avatar fields among
password, bio, following and followers — and fails with UserNotFound when
no user with that id exists. -/
theorem getProfile_full_record (db : DB) (i : Nat) :
    (∀ u, findUser db i = some u →
      getProfile db i = Except.ok u ∧
      getProfileJson db i = Except.ok (userToJson i u) ∧
      ("username", JField.jstr u.username) ∈ userToJson i u ∧
      ("name", JField.jstr u.name) ∈ userToJson i u ∧
      ("avatar", JField.jstr u.avatar) ∈ userToJson i u) ∧
    (findUser db i = none →
      getProfile db i = Except.error Err.UserNotFound) := by
  constructor
  · intro u hu
    refine ⟨?_, ?_, ?_, ?_, ?_⟩ <;> simp [getProfile, getProfileJson, hu, userToJson]
  · intro h
    simp [getProfile, h]

/-- C1 witness: the amended theorem applied to the concrete store. -/
theorem getProfile_full_record_witness :
    getProfile dbTwo 0 = Except.ok annUser ∧
    getProfileJson dbTwo 0 = Except.ok (userToJson 0 annUser) :=
  ⟨(((getProfile_full_record dbTwo 0).1 annUser (by decide)).1),
   (((getProfile_full_record dbTwo 0).1 annUser (by decide)).2.1)⟩

/-! Claim C4. -/

/-- C4: when the actor already follows the target, POST /api/users/:id/follow
fails with the AlreadyFollowing conflict and returns the store unchanged:
no entry is appended and no counter is modified. -/
theorem follow_already_following (db : DB) (a b : Nat) (ua ub : User)
    (ha : findUser db a = some ua) (hb : findUser db b = some ub)
    (hf : b ∈ ua.following) :
    follow db a b = (db, Except.error Err.AlreadyFollowing) := by
  simp [follow, ha, hb, hf]

/-- C4 witness: ann already follows bob, so a second follow is a conflict
and the store is untouched. -/
theorem follow_already_following_witness :
    follow dbAnnFollows 0 1 = (dbAnnFollows, Except.error Err.AlreadyFollowing) :=
  follow_already_following dbAnnFollows 0 1 annFollowsUser bobFollowedUser
    (by decide) (by decide) (by decide)

/-! Claim C5. -/

/-- C5, counterexample: the code splits the name on the single space
character only, not on general whitespace: for the name "A\tB" signup
stores avatar "A" (one token), while the claimed procedure over
whitespace-separated tokens yields "AB". -/
theorem signup_avatar_counterexample :
    (signup dbInit "ann" "p" "A\tB").2 =
      Except.ok ⟨0, "ann", "A\tB", "A"⟩ ∧
    avatarOfWhitespaceSpec "A\tB" = "AB" ∧
    ("A" : String) ≠ "AB" := by
  decide

/-- C5 (amended): for every name, signup derives the avatar by taking the
first character of each token obtained by splitting the name on single
space characters (empty tokens contribute nothing), concatenating them in
order, truncating to at most 2 characters, and uppercasing; in particular
"Ann Lee" yields "AL" and "X" yields "X". -/
theorem signup_avatar_spec (db : DB) (username password name : String)
    (db' : DB) (r : SignupResp)
    (h : signup db username password name = (db', Except.ok r)) :
    r.avatar = avatarOfSpaceSpec name ∧
    (∃ u, (r.userId, u) ∈ db'.users ∧ u.avatar = avatarOfSpaceSpec name) ∧
    avatarOfSpaceSpec "Ann Lee" = "AL" ∧ avatarOfSpaceSpec "X" = "X" := by
  unfold signup at h
  by_cases h1 : username = "" ∨ password = "" ∨ name = ""
  · simp [h1] at h
  · rw [if_neg h1] at h
    by_cases h2 : (findByUsername db.users username).isSome
    · simp [h2] at h
    · simp only [h2, if_false, Bool.false_eq_true, Prod.mk.injEq,
        Except.ok.injEq] at h
      obtain ⟨hdb, hr⟩ := h
      refine ⟨?_, ?_, by decide, by decide⟩
      · rw [← hr, ← avatarOf_eq_spaceSpec]
      · refine ⟨User.mk username (hashPassword password) name (avatarOf name)
          "" [] 0, ?_, ?_⟩
        · rw [← hdb, ← hr]
          simp
        · simpa using avatarOf_eq_spaceSpec name

/-- C5 witness: the amended theorem applied to ann's concrete signup. -/
theorem signup_avatar_spec_witness :
    (SignupResp.mk 0 "ann" "Ann Lee" "AL").avatar = avatarOfSpaceSpec "Ann Lee" ∧
    (∃ u, ((0 : Nat), u) ∈ dbAnn.users ∧ u.avatar = avatarOfSpaceSpec "Ann Lee") ∧
    avatarOfSpaceSpec "Ann Lee" = "AL" ∧ avatarOfSpaceSpec "X" = "X" :=
  signup_avatar_spec dbInit "ann" "p" "Ann Lee" dbAnn
    ⟨0, "ann", "Ann Lee", "AL"⟩ (by decide)

/-! Claim C6. -/

/-- C6, counterexample: when the username is already taken but another
field is empty, signup fails with the MissingField validation error, not
the UsernameTaken conflict — the field-presence check runs first, so the
conflict error does not fire "regardless of the other field values". -/
theorem signup_taken_counterexample :
    findByUsername dbAnn.users "ann" = some annUser ∧
    signup dbAnn "ann" "" "Bob" = (dbAnn, Except.error Err.MissingField) ∧
    Err.MissingField ≠ Err.UsernameTaken := by
  decide

/-- C6 (amended): signup fails with MissingField (HTTP 400) whenever any
of username, password, name is empty; it fails with UsernameTaken
(HTTP 400) whenever a user record with that username exists and all three
fields are non-empty (presence is checked first); in both failure cases
the store — hence the set of persisted users — is unchanged. -/
theorem signup_validation (db : DB) (username password name : String) :
    ((username = "" ∨ password = "" ∨ name = "") →
      signup db username password name = (db, Except.error Err.MissingField)) ∧
    (username ≠ "" → password ≠ "" → name ≠ "" →
      (findByUsername db.users username).isSome →
      signup db username password name = (db, Except.error Err.UsernameTaken)) := by
  constructor
  · intro h
    simp [signup, h]
  · intro h1 h2 h3 h4
    simp [signup, h1, h2, h3, h4]

/-- C6 witness: the amended theorem applied at concrete inputs for both
failure modes. -/
theorem signup_validation_witness :
    signup dbAnn "ann" "p2" "Bob" = (dbAnn, Except.error Err.UsernameTaken) ∧
    signup dbAnn "" "p" "Bob" = (dbAnn, Except.error Err.MissingField) :=
  ⟨(signup_validation dbAnn "ann" "p2" "Bob").2 (by decide) (by decide)
      (by decide) (by decide),
   (signup_validation dbAnn "" "p" "Bob").1 (by decide)⟩

/-! Claim C7. -/

/-- C7: GET /api/tweets returns all stored tweets (a permutation of the
store, nothing dropped and no pagination), in creation-time descending
order; on the empty store it returns the empty list. -/
theorem listTweets_ordering (db : DB) :
    List.Perm (listTweets db) (db.tweets.map fun p => p.2) ∧
    (listTweets db).Pairwise (fun a b => b.createdAt ≤ a.createdAt) ∧
    listTweets dbInit = [] := by
  refine ⟨List.mergeSort_perm _ _, ?_, by simp [listTweets, dbInit]⟩
  unfold listTweets
  refine List.Pairwise.imp ?_
    (List.sorted_mergeSort ?_ ?_ (db.tweets.map fun p => p.2))
  · intro a b hab
    exact of_decide_eq_true hab
  · intro a b c hab hbc
    simp only [decide_eq_true_eq] at *
    omega
  · intro a b
    rcases Nat.le_total b.createdAt a.createdAt with h | h <;> simp [h]

/-! Claim C2. -/

/-- Helper: the store after a successful like toggle holds the found
tweet with only its likes list toggled. -/
theorem findTweet_toggleLike (db : DB) (tid uid : Nat) (u : User)
    (t : Tweet) (hu : findUser db uid = some u)
    (ht : findTweet db tid = some t) :
    findTweet (toggleLike db tid uid).1 tid
      = some { t with likes := toggleLikes t.likes uid } := by
  have h1 : (toggleLike db tid uid).1
      = updateTweet db tid fun tw =>
          { tw with likes := toggleLikes t.likes uid } := by
    simp [toggleLike, hu, ht]
  rw [h1, findTweet_updateTweet_self, ht]
  rfl

/-- C2: toggling a like twice in sequence by the same user, with no
interleaved operations, restores the tweet's likes membership for that
user, provided the user appears at most once in the like list (the
at-most-one-entry invariant of the data model). -/
theorem toggleLike_twice_membership (db : DB) (tid uid : Nat) (u : User)
    (t : Tweet) (hu : findUser db uid = some u)
    (ht : findTweet db tid = some t) (hc : t.likes.count uid ≤ 1) :
    ∃ t', findTweet (toggleLike (toggleLike db tid uid).1 tid uid).1 tid
        = some t' ∧ ((uid ∈ t'.likes) ↔ uid ∈ t.likes) := by
  have step1 := findTweet_toggleLike db tid uid u t hu ht
  have hu1 : findUser (toggleLike db tid uid).1 uid = some u := by
    unfold findUser
    rw [users_toggleLike]
    exact hu
  have step2 := findTweet_toggleLike (toggleLike db tid uid).1 tid uid u
    { t with likes := toggleLikes t.likes uid } hu1 step1
  exact ⟨{ t with likes := toggleLikes (toggleLikes t.likes uid) uid },
    step2, mem_toggleLikes_twice hc⟩

/-- C2 witness: the double toggle on ann's fresh tweet. -/
theorem toggleLike_twice_membership_witness :
    ∃ t', findTweet (toggleLike (toggleLike dbAnnT 0 0).1 0 0).1 0
        = some t' ∧ (((0 : Nat) ∈ t'.likes) ↔ (0 : Nat) ∈ tweetHello.likes) :=
  toggleLike_twice_membership dbAnnT 0 0 annUser tweetHello
    (by decide) (by decide) (by decide)

/-! Claim C10. -/

/-- C10: a successful like toggle modifies only the target tweet's likes
field; every other field of that tweet, every other tweet, and the whole
user collection are unchanged. -/
theorem toggleLike_frame (db : DB) (tid uid : Nat) (u : User) (t : Tweet)
    (hu : findUser db uid = some u) (ht : findTweet db tid = some t) :
    ∃ db' t', toggleLike db tid uid = (db', Except.ok t') ∧
      t'.likes = toggleLikes t.likes uid ∧
      t'.userId = t.userId ∧ t'.author = t.author ∧ t'.handle = t.handle ∧
      t'.avatar = t.avatar ∧ t'.content = t.content ∧ t'.image = t.image ∧
      t'.retweets = t.retweets ∧ t'.comments = t.comments ∧
      t'.createdAt = t.createdAt ∧
      findTweet db' tid = some t' ∧
      (∀ j, j ≠ tid → findTweet db' j = findTweet db j) ∧
      db'.users = db.users := by
  refine ⟨updateTweet db tid fun tw => { tw with likes := toggleLikes t.likes uid },
    { t with likes := toggleLikes t.likes uid },
    ?_, rfl, rfl, rfl, rfl, rfl, rfl, rfl, rfl, rfl, rfl, ?_, ?_, rfl⟩
  · simp [toggleLike, hu, ht]
  · rw [findTweet_updateTweet_self, ht]
    rfl
  · intro j hj
    exact findTweet_updateTweet_ne hj db _

/-- C10 witness: the frame condition at ann's like of her own tweet. -/
theorem toggleLike_frame_witness :
    ∃ db' t', toggleLike dbAnnT 0 0 = (db', Except.ok t') ∧
      t'.likes = toggleLikes tweetHello.likes 0 ∧
      t'.userId = tweetHello.userId ∧ t'.author = tweetHello.author ∧
      t'.handle = tweetHello.handle ∧ t'.avatar = tweetHello.avatar ∧
      t'.content = tweetHello.content ∧ t'.image = tweetHello.image ∧
      t'.retweets = tweetHello.retweets ∧ t'.comments = tweetHello.comments ∧
      t'.createdAt = tweetHello.createdAt ∧
      findTweet db' 0 = some t' ∧
      (∀ j, j ≠ 0 → findTweet db' j = findTweet dbAnnT j) ∧
      db'.users = dbAnnT.users :=
  toggleLike_frame dbAnnT 0 0 annUser tweetHello (by decide) (by decide)

/-! Claim C3. -/

/-- Helper: the store a successful follow produces — the target is
appended to the actor's following list, then the target's follower
counter is incremented (two path-level saves). -/
theorem follow_ok (db : DB) (a b : Nat) (ua ub : User)
    (ha : findUser db a = some ua) (hb : findUser db b = some ub)
    (hnf : b ∉ ua.following) :
    (follow db a b).1 =
      updateUser
        (updateUser db a fun u => { u with following := u.following ++ [b] })
        b fun u => { u with followers := u.followers + 1 } := by
  simp [follow, ha, hb, hnf]

/-- Helper: the store a successful unfollow produces — the first
occurrence of the target is removed from the actor's following list, then
the target's follower counter is decremented (floored at 0). -/
theorem unfollow_ok (db : DB) (a b : Nat) (ua ub : User)
    (ha : findUser db a = some ua) (hb : findUser db b = some ub)
    (hf : b ∈ ua.following) :
    (unfollow db a b).1 =
      updateUser
        (updateUser db a fun u => { u with following := u.following.erase b })
        b fun u => { u with followers := u.followers - 1 } := by
  simp [unfollow, ha, hb, hf]

/-- C3: for users A and B with A not already following B, Follow(A,B)
then Unfollow(A,B), with no interleaved operations, restores A's
following list exactly and B's followers counter exactly. -/
theorem follow_unfollow_roundtrip (db : DB) (a b : Nat) (ua ub : User)
    (ha : findUser db a = some ua) (hb : findUser db b = some ub)
    (hnf : b ∉ ua.following) :
    ∃ ua' ub',
      findUser (unfollow (follow db a b).1 a b).1 a = some ua' ∧
      ua'.following = ua.following ∧
      findUser (unfollow (follow db a b).1 a b).1 b = some ub' ∧
      ub'.followers = ub.followers := by
  have hfol := follow_ok db a b ua ub ha hb hnf
  by_cases hab : a = b
  · subst hab
    have huab : ua = ub := by
      rw [ha] at hb
      exact Option.some.inj hb
    subst huab
    have h1a : findUser (follow db a a).1 a
        = some { ua with following := ua.following ++ [a],
                         followers := ua.followers + 1 } := by
      rw [hfol, findUser_updateUser_self, findUser_updateUser_self, ha]
      rfl
    have hunf := unfollow_ok (follow db a a).1 a a _ _ h1a h1a (by simp)
    have h2a : findUser (unfollow (follow db a a).1 a a).1 a
        = some { ua with following := (ua.following ++ [a]).erase a,
                         followers := ua.followers + 1 - 1 } := by
      rw [hunf, findUser_updateUser_self, findUser_updateUser_self, h1a]
      rfl
    refine ⟨_, _, h2a, ?_, h2a, ?_⟩
    · simp [List.erase_append_right _ hnf]
    · simp
  · have h1a : findUser (follow db a b).1 a
        = some { ua with following := ua.following ++ [b] } := by
      rw [hfol, findUser_updateUser_ne hab, findUser_updateUser_self, ha]
      rfl
    have h1b : findUser (follow db a b).1 b
        = some { ub with followers := ub.followers + 1 } := by
      rw [hfol, findUser_updateUser_self, findUser_updateUser_ne (Ne.symm hab), hb]
      rfl
    have hunf := unfollow_ok (follow db a b).1 a b _ _ h1a h1b (by simp)
    have h2a : findUser (unfollow (follow db a b).1 a b).1 a
        = some { ua with following := (ua.following ++ [b]).erase b } := by
      rw [hunf, findUser_updateUser_ne hab, findUser_updateUser_self, h1a]
      rfl
    have h2b : findUser (unfollow (follow db a b).1 a b).1 b
        = some { ub with followers := ub.followers + 1 - 1 } := by
      rw [hunf, findUser_updateUser_self, findUser_updateUser_ne (Ne.symm hab), h1b]
      rfl
    refine ⟨_, _, h2a, ?_, h2b, ?_⟩
    · simp [List.erase_append_right _ hnf]
    · simp

/-- C3 witness: ann follows bob and unfollows him again, restoring her
list and his counter. -/
theorem follow_unfollow_roundtrip_witness :
    ∃ ua' ub',
      findUser (unfollow (follow dbTwo 0 1).1 0 1).1 0 = some ua' ∧
      ua'.following = annUser.following ∧
      findUser (unfollow (follow dbTwo 0 1).1 0 1).1 1 = some ub' ∧
      ub'.followers = bobUser.followers :=
  follow_unfollow_roundtrip dbTwo 0 1 annUser bobUser
    (by decide) (by decide) (by decide)

/-! Claim C8. -/

/-- C8: a tweet created by an authenticated user snapshots the author's
current name, handle (@username) and avatar, and no operation of the API
ever changes the author, handle or avatar fields of a stored tweet. -/
theorem tweet_snapshot :
    (∀ db uid u content image now db' t,
      findUser db uid = some u →
      createTweet db uid content image now = (db', Except.ok t) →
      t.author = u.name ∧ t.handle = "@" ++ u.username ∧
        t.avatar = u.avatar) ∧
    (∀ db op tid t, findTweet db tid = some t →
      ∃ t', findTweet (applyOp db op) tid = some t' ∧
        t'.author = t.author ∧ t'.handle = t.handle ∧
        t'.avatar = t.avatar) := by
  constructor
  · intro db uid u content image now db' t hu h
    by_cases hc : content = ""
    · simp [createTweet, hu, hc] at h
    · simp only [createTweet, hu, hc, if_false, Prod.mk.injEq,
        Except.ok.injEq] at h
      rw [← h.2]
      exact ⟨rfl, rfl, rfl⟩
  · intro db op tid t ht
    cases op with
    | opSignup username password name =>
      refine ⟨t, ?_, rfl, rfl, rfl⟩
      have hts : (applyOp db (Op.opSignup username password name)).tweets
          = db.tweets := tweets_signup db username password name
      unfold findTweet
      rw [hts]
      exact ht
    | opFollow a b =>
      refine ⟨t, ?_, rfl, rfl, rfl⟩
      have hts : (applyOp db (Op.opFollow a b)).tweets = db.tweets :=
        tweets_follow db a b
      unfold findTweet
      rw [hts]
      exact ht
    | opUnfollow a b =>
      refine ⟨t, ?_, rfl, rfl, rfl⟩
      have hts : (applyOp db (Op.opUnfollow a b)).tweets = db.tweets :=
        tweets_unfollow db a b
      unfold findTweet
      rw [hts]
      exact ht
    | opCreateTweet uid content image now =>
      rcases hu : findUser db uid with _ | u
      · refine ⟨t, ?_, rfl, rfl, rfl⟩
        simp only [applyOp, createTweet, hu]
        exact ht
      · by_cases hc : content = ""
        · refine ⟨t, ?_, rfl, rfl, rfl⟩
          simp only [applyOp, createTweet, hu]
          rw [if_pos hc]
          exact ht
        · refine ⟨t, ?_, rfl, rfl, rfl⟩
          simp only [applyOp, createTweet, hu]
          rw [if_neg hc]
          exact lookupA_append_of_some _ ht
    | opToggleLike tid' uid =>
      rcases hu : findUser db uid with _ | u
      · refine ⟨t, ?_, rfl, rfl, rfl⟩
        simp only [applyOp, toggleLike, hu]
        exact ht
      · rcases ht' : findTweet db tid' with _ | t0
        · refine ⟨t, ?_, rfl, rfl, rfl⟩
          simp only [applyOp, toggleLike, hu, ht']
          exact ht
        · by_cases htid : tid = tid'
          · subst htid
            refine ⟨{ t with likes := toggleLikes t0.likes uid }, ?_, rfl, rfl, rfl⟩
            simp only [applyOp, toggleLike, hu, ht']
            rw [findTweet_updateTweet_self, ht]
            rfl
          · refine ⟨t, ?_, rfl, rfl, rfl⟩
            simp only [applyOp, toggleLike, hu, ht']
            rw [findTweet_updateTweet_ne htid]
            exact ht
    | opAddComment tid' uid content now =>
      rcases hu : findUser db uid with _ | u
      · refine ⟨t, ?_, rfl, rfl, rfl⟩
        simp only [applyOp, addComment, hu]
        exact ht
      · by_cases hc : content = ""
        · refine ⟨t, ?_, rfl, rfl, rfl⟩
          simp only [applyOp, addComment, hu]
          rw [if_pos hc]
          exact ht
        · rcases ht' : findTweet db tid' with _ | t0
          · refine ⟨t, ?_, rfl, rfl, rfl⟩
            simp only [applyOp, addComment, hu, ht']
            rw [if_neg hc]
            exact ht
          · by_cases htid : tid = tid'
            · subst htid
              refine ⟨{ t with comments := t0.comments ++
                  [Comment.mk uid u.name u.username u.avatar content now] },
                ?_, rfl, rfl, rfl⟩
              simp only [applyOp, addComment, hu, ht']
              rw [if_neg hc]
              simp only [ht']
              rw [findTweet_updateTweet_self, ht]
              rfl
            · refine ⟨t, ?_, rfl, rfl, rfl⟩
              simp only [applyOp, addComment, hu, ht']
              rw [if_neg hc]
              simp only [ht']
              rw [findTweet_updateTweet_ne htid]
              exact ht

/-- C8 witness: ann's tweet snapshots her profile, and a like toggle on
the stored tweet preserves the snapshot fields. -/
theorem tweet_snapshot_witness :
    (tweetHello.author = annUser.name ∧
      tweetHello.handle = "@" ++ annUser.username ∧
      tweetHello.avatar = annUser.avatar) ∧
    (∃ t', findTweet (applyOp dbAnnT (Op.opToggleLike 0 0)) 0 = some t' ∧
      t'.author = tweetHello.author ∧ t'.handle = tweetHello.handle ∧
      t'.avatar = tweetHello.avatar) :=
  ⟨tweet_snapshot.1 dbAnn 0 annUser "hi" none 5 dbAnnT tweetHello
      (by decide) (by decide),
   tweet_snapshot.2 dbAnnT (Op.opToggleLike 0 0) 0 tweetHello (by decide)⟩

/-! Claim C9. -/

/-- C9: in every reachable database state, every stored tweet has its
retweets counter equal to 0: it is initialized to 0 at creation and no
operation of the API ever changes it. -/
theorem retweets_never_mutated (db : DB) (h : Reachable db) :
    ∀ p ∈ db.tweets, p.2.retweets = 0 := by
  induction h with
  | init =>
    intro p hp
    simp [dbInit] at hp
  | step db op hdb ih =>
    intro p hp
    cases op with
    | opSignup username password name =>
      rw [show (applyOp db (Op.opSignup username password name)).tweets
          = db.tweets from tweets_signup db username password name] at hp
      exact ih p hp
    | opFollow a b =>
      rw [show (applyOp db (Op.opFollow a b)).tweets = db.tweets from
          tweets_follow db a b] at hp
      exact ih p hp
    | opUnfollow a b =>
      rw [show (applyOp db (Op.opUnfollow a b)).tweets = db.tweets from
          tweets_unfollow db a b] at hp
      exact ih p hp
    | opCreateTweet uid content image now =>
      rcases hu : findUser db uid with _ | u
      · simp only [applyOp, createTweet, hu] at hp
        exact ih p hp
      · by_cases hc : content = ""
        · simp only [applyOp, createTweet, hu] at hp
          rw [if_pos hc] at hp
          exact ih p hp
        · simp only [applyOp, createTweet, hu] at hp
          rw [if_neg hc] at hp
          simp only [List.mem_append, List.mem_singleton] at hp
          rcases hp with hp | hp
          · exact ih p hp
          · rw [hp]
    | opToggleLike tid uid =>
      rcases hu : findUser db uid with _ | u
      · simp only [applyOp, toggleLike, hu] at hp
        exact ih p hp
      · rcases ht : findTweet db tid with _ | t0
        · simp only [applyOp, toggleLike, hu, ht] at hp
          exact ih p hp
        · simp only [applyOp, toggleLike, hu, ht, updateTweet] at hp
          obtain ⟨q, hq, hpq⟩ := mem_updateA hp
          rcases hpq with hpq | hpq <;> rw [hpq] <;> exact ih q hq
    | opAddComment tid uid content now =>
      rcases hu : findUser db uid with _ | u
      · simp only [applyOp, addComment, hu] at hp
        exact ih p hp
      · by_cases hc : content = ""
        · simp only [applyOp, addComment, hu] at hp
          rw [if_pos hc] at hp
          exact ih p hp
        · rcases ht : findTweet db tid with _ | t0
          · simp only [applyOp, addComment, hu, ht] at hp
            rw [if_neg hc] at hp
            exact ih p hp
          · simp only [applyOp, addComment, hu, ht, updateTweet] at hp
            rw [if_neg hc] at hp
            simp only [ht] at hp
            obtain ⟨q, hq, hpq⟩ := mem_updateA hp
            rcases hpq with hpq | hpq <;> rw [hpq] <;> exact ih q hq

/-- C9 witness: the invariant at the concrete state reached by one signup
followed by one tweet creation. -/
theorem retweets_never_mutated_witness :
    tweetHello.retweets = 0 :=
  retweets_never_mutated dbAnnT
    (by
      have h : dbAnnT
          = applyOp (applyOp dbInit (Op.opSignup "ann" "p" "Ann Lee"))
              (Op.opCreateTweet 0 "hi" none 5) := by decide
      rw [h]
      exact Reachable.step _ _ (Reachable.step _ _ Reachable.init))
    (0, tweetHello) (by decide)

end Chirper
